import Mathlib

/-!
Verification development for the express-soul-provider storefront.

The relational data model and request handlers are shallowly embedded:
each table is a Lean list of row structures, each handler is a pure
function from the relevant state (plus the already-parsed request data
that the HTTP layer supplies) to a result and a new state.  Monetary
amounts (REAL columns, JS numbers) are modelled as rationals; the
JavaScript expression `Math.round(x * 100) / 100` is modelled by
`round2` below.  SQL `datetime` values are modelled as integers ordered
by time.
-/

namespace SoulProvider

/-- JavaScript `Math.round`: round half away from zero toward positive
infinity, i.e. the floor of `x + 1/2`. -/
def jsRound (x : ℚ) : ℤ := ⌊x + 1/2⌋

/-- `Math.round(x * 100) / 100`: round to 2 decimal places as the
checkout controller does for discount, tax and total. -/
def round2 (x : ℚ) : ℚ := ((jsRound (x * 100) : ℤ) : ℚ) / 100

/-- An amount that is a whole number of cents (2 decimal places). -/
def IsCents (x : ℚ) : Prop := ∃ n : ℤ, x = (n : ℚ) / 100

theorem round2_mono {x y : ℚ} (h : x ≤ y) : round2 x ≤ round2 y := by
  unfold round2 jsRound
  have hf : ⌊x * 100 + 1/2⌋ ≤ ⌊y * 100 + 1/2⌋ := by
    apply Int.floor_le_floor
    have : x * 100 ≤ y * 100 := by nlinarith
    linarith
  have : ((⌊x * 100 + 1/2⌋ : ℤ) : ℚ) ≤ ((⌊y * 100 + 1/2⌋ : ℤ) : ℚ) := by
    exact_mod_cast hf
  linarith

theorem round2_cents {x : ℚ} (h : IsCents x) : round2 x = x := by
  obtain ⟨n, rfl⟩ := h
  unfold round2 jsRound
  have h100 : ((n : ℚ) / 100) * 100 = (n : ℚ) := by ring
  rw [h100]
  have : ⌊(n : ℚ) + 1/2⌋ = n := by
    rw [add_comm]
    rw [Int.floor_add_int]
    norm_num
  rw [this]

theorem round2_nonneg {x : ℚ} (h : 0 ≤ x) : 0 ≤ round2 x := by
  unfold round2 jsRound
  have hfl : (0 : ℤ) ≤ ⌊x * 100 + 1/2⌋ := by
    apply Int.le_floor.mpr
    push_cast
    nlinarith
  have : (0 : ℚ) ≤ ((⌊x * 100 + 1/2⌋ : ℤ) : ℚ) := by exact_mod_cast hfl
  linarith

/-! ## Checkout and coupons (src/controllers/checkoutController.js) -/

namespace Checkout

/-- `coupons.discount_type` CHECK constraint (migration 004). -/
inductive DiscountType where
  | percentage
  | fixed_amount
  deriving DecidableEq, Repr

/-- A row of the `coupons` table (migration 004).  `REAL` columns are
rationals; nullable columns are `Option`; `datetime` text columns are
integer timestamps. -/
structure Coupon where
  id : Nat
  code : String
  discount_type : DiscountType
  discount_value : ℚ
  min_purchase_amount : Option ℚ := some 0
  max_discount_amount : Option ℚ := none
  valid_from : Option ℤ := none
  valid_until : Option ℤ := none
  max_uses : Option Nat := none
  times_used : Nat := 0
  is_active : Bool := true
  deriving DecidableEq, Repr

/-- JavaScript truthiness of a nullable numeric column: `NULL` and `0`
are falsy. -/
def qTruthy : Option ℚ → Bool
  | none => false
  | some x => decide (x ≠ 0)

/-- JavaScript truthiness of a nullable integer column. -/
def nTruthy : Option Nat → Bool
  | none => false
  | some n => decide (n ≠ 0)

/-- The WHERE clause of the coupon lookup in `validateCoupon`:
code matches, `is_active = 1`, and the validity window (inclusive
bounds, a NULL bound is unbounded on that side) contains `now`. -/
def couponQueryMatches (c : Coupon) (code : String) (now : ℤ) : Bool :=
  c.code == code && c.is_active &&
    (match c.valid_from with | none => true | some t => decide (t ≤ now)) &&
    (match c.valid_until with | none => true | some t => decide (now ≤ t))

/-- Result shape of `validateCoupon`: either `valid: false` with an
error string, or `valid: true` with the coupon row and the rounded
discount amount. -/
inductive CouponValidation where
  | invalid (error : String)
  | valid (coupon : Coupon) (discountAmount : ℚ)
  deriving DecidableEq, Repr

/-- The cap step of `validateCoupon` for percentage coupons:
`if (coupon.max_discount_amount && discountAmount > coupon.max_discount_amount)`
replaces the discount by the cap (a NULL or zero cap is falsy and
ignored). -/
def capApply (cap : Option ℚ) (d : ℚ) : ℚ :=
  match cap with
  | some v => if v ≠ 0 ∧ d > v then v else d
  | none => d

/-- The raw discount computed by `validateCoupon` before rounding:
percentage type is `subtotal * (value / 100)` capped at
`max_discount_amount` when that column is truthy and exceeded;
fixed-amount type is `min(value, subtotal)`. -/
def rawDiscount (c : Coupon) (subtotal : ℚ) : ℚ :=
  match c.discount_type with
  | .percentage => capApply c.max_discount_amount
      (subtotal * (c.discount_value / 100))
  | .fixed_amount => min c.discount_value subtotal

theorem rawDiscount_percentage {c : Coupon} (h : c.discount_type = .percentage)
    (s : ℚ) :
    rawDiscount c s = capApply c.max_discount_amount
      (s * (c.discount_value / 100)) := by
  unfold rawDiscount
  rw [h]

theorem rawDiscount_fixed {c : Coupon} (h : c.discount_type = .fixed_amount)
    (s : ℚ) :
    rawDiscount c s = min c.discount_value s := by
  unfold rawDiscount
  rw [h]

theorem capApply_none (d : ℚ) : capApply none d = d := rfl

theorem capApply_some (v d : ℚ) :
    capApply (some v) d = if v ≠ 0 ∧ d > v then v else d := rfl

theorem capApply_le {cap : Option ℚ} {d s : ℚ} (h : d ≤ s) :
    capApply cap d ≤ s := by
  cases cap with
  | none => rw [capApply_none]; exact h
  | some v =>
      rw [capApply_some]
      split_ifs with hc
      · exact le_trans hc.2.le h
      · exact h

theorem capApply_some_le {v d s : ℚ} (hv : v ≤ s) (h0 : v ≠ 0) :
    capApply (some v) d ≤ s := by
  rw [capApply_some]
  split_ifs with hc
  · exact hv
  · rw [not_and_or] at hc
    rcases hc with h | h
    · exact absurd h0 (by simpa using h)
    · push_neg at h
      exact le_trans h hv

/-- `validateCoupon(db, couponCode, subtotal, humanId)` from
checkoutController.js: look the code up among active in-window coupons,
check the minimum-purchase threshold and the usage cap, then compute
and round the discount. -/
def validateCoupon (coupons : List Coupon) (couponCode : String)
    (subtotal : ℚ) (now : ℤ) : CouponValidation :=
  match coupons.find? (fun c => couponQueryMatches c couponCode now) with
  | none => .invalid "Invalid or expired coupon code"
  | some coupon =>
      if qTruthy coupon.min_purchase_amount ∧
          subtotal < coupon.min_purchase_amount.getD 0 then
        .invalid "Minimum purchase required"
      else if nTruthy coupon.max_uses ∧
          coupon.times_used ≥ coupon.max_uses.getD 0 then
        .invalid "Coupon usage limit reached"
      else
        .valid coupon (round2 (rawDiscount coupon subtotal))

/-- One row of the cart join
`SELECT ci.product_id, ci.quantity, p.price FROM cart_items ci JOIN products p`. -/
structure CartLine where
  product_id : Nat
  quantity : Nat
  price : ℚ
  deriving DecidableEq, Repr

/-- `cartItems.reduce((sum, item) => sum + item.price * item.quantity, 0)`. -/
def cartSubtotal (items : List CartLine) : ℚ :=
  items.foldl (fun sum item => sum + item.price * item.quantity) 0

/-- The fixed tax rate used by both `previewOrder` and `createOrder`. -/
def taxRate : ℚ := 8 / 100

/-- Result of `previewOrder` / the totals computed by `createOrder`. -/
inductive PreviewResult where
  | emptyCart
  | couponRejected (error : String)
  | ok (subtotal discount tax total : ℚ)
  deriving DecidableEq, Repr

/-- The tail of `previewOrder` once the discount is known:
`taxAmount = round2((subtotal - discountAmount) * taxRate)` and
`totalAmount = round2(subtotal - discountAmount + taxAmount)`.  The
`subtotal` field of the JSON response is rounded for display; tax and
total are computed from the raw subtotal. -/
def mkTotals (subtotal discountAmount : ℚ) : PreviewResult :=
  .ok (round2 subtotal) discountAmount
    (round2 ((subtotal - discountAmount) * taxRate))
    (round2 (subtotal - discountAmount +
      round2 ((subtotal - discountAmount) * taxRate)))

/-- `previewOrder` (and the identical totals computation in
`createOrder`): reject an empty cart, validate the coupon when a code
is supplied (rejecting on validation failure), then compute tax and
total via `mkTotals`. -/
def previewOrder (items : List CartLine) (coupons : List Coupon)
    (couponCode : Option String) (now : ℤ) : PreviewResult :=
  if items.isEmpty then .emptyCart
  else
    match couponCode with
    | none => mkTotals (cartSubtotal items) 0
    | some code =>
        match validateCoupon coupons code (cartSubtotal items) now with
        | .invalid e => .couponRejected e
        | .valid _ d => mkTotals (cartSubtotal items) d

/-- A row of the `orders` table (migration 004), the columns
`createOrder` inserts. -/
structure OrderRow where
  id : Nat
  human_id : Nat
  order_number : String
  status : String
  subtotal : ℚ
  discount_amount : ℚ
  tax_amount : ℚ
  total_amount : ℚ
  deriving DecidableEq, Repr

/-- A row of the `order_items` table, the columns `createOrder`
inserts. -/
structure OrderItemRow where
  order_id : Nat
  product_id : Nat
  quantity : Nat
  unit_price : ℚ
  line_total : ℚ
  deriving DecidableEq, Repr

/-- A row of the `order_coupons` table. -/
structure OrderCouponRow where
  order_id : Nat
  coupon_id : Nat
  discount_applied : ℚ
  deriving DecidableEq, Repr

/-- The slice of the database that `createOrder` reads and writes for
one person: the person's cart join rows, and the coupon/order tables. -/
structure Store where
  cart : List CartLine
  coupons : List Coupon
  orders : List OrderRow
  order_items : List OrderItemRow
  order_coupons : List OrderCouponRow
  deriving DecidableEq, Repr

/-- Outcome of `createOrder`. -/
inductive CreateOrderResult where
  | emptyCart
  | couponRejected (error : String)
  | dbError
  | created (orderId : Nat) (total : ℚ)
  deriving DecidableEq, Repr

/-- `UPDATE coupons SET times_used = times_used + 1 WHERE id = ?`. -/
def bumpCouponUsage (coupons : List Coupon) (cid : Nat) : List Coupon :=
  coupons.map (fun c0 =>
    if c0.id = cid then { c0 with times_used := c0.times_used + 1 } else c0)

/-- The two coupon writes of `createOrder` when a coupon was applied:
insert the order_coupons row (write `k`), then increment the coupon
usage counter (write `k + 1`).  An injected error keeps the earlier
writes. -/
def applyCouponWrites (orderId : Nat) (c : Coupon) (d : ℚ)
    (failAt : Option Nat) (k : Nat) (st : Store) : Except Store (Store × Nat) :=
  if failAt = some k then .error st
  else
    let st3 : Store :=
      { st with order_coupons := st.order_coupons ++ [⟨orderId, c.id, d⟩] }
    if failAt = some (k + 1) then .error st3
    else .ok ({ st3 with coupons := bumpCouponUsage st3.coupons c.id }, k + 2)

/-- The order_items insertion loop of `createOrder`.  Each `db.run` is
a numbered write; `failAt = some k` injects a database error at write
`k`.  On an error the loop stops and the state keeps every write made
so far, because `createOrder` opens no transaction: there is nothing to
roll back to. -/
def insertOrderItems (orderId : Nat) (items : List CartLine)
    (failAt : Option Nat) (k : Nat) (st : Store) : Except Store (Store × Nat) :=
  match items with
  | [] => .ok (st, k)
  | item :: rest =>
      if failAt = some k then .error st
      else
        insertOrderItems orderId rest failAt (k + 1)
          { st with order_items := st.order_items ++
              [⟨orderId, item.product_id, item.quantity, item.price,
                item.price * item.quantity⟩] }

/-- `createOrder` from checkoutController.js as the sequence of
database writes it performs: insert the order row (write 0), insert one
order_items row per cart row (writes 1..n), insert the order_coupons
row and increment the coupon counter when a coupon was applied, then
delete the cart rows.  The writes run back to back with no BEGIN or
COMMIT; a write that throws leaves every earlier write in place. -/
def createOrder (st : Store) (humanId : Nat) (couponCode : Option String)
    (now : ℤ) (orderId : Nat) (orderNumber : String) (failAt : Option Nat) :
    CreateOrderResult × Store :=
  if st.cart.isEmpty then (.emptyCart, st)
  else
    let subtotal := cartSubtotal st.cart
    let couponRes : Except String (Option (Coupon × ℚ)) :=
      match couponCode with
      | none => .ok none
      | some code =>
          match validateCoupon st.coupons code subtotal now with
          | .invalid e => .error e
          | .valid c d => .ok (some (c, d))
    match couponRes with
    | .error e => (.couponRejected e, st)
    | .ok cop =>
        let discountAmount := (cop.map (fun p => p.2)).getD 0
        let taxAmount := round2 ((subtotal - discountAmount) * taxRate)
        let totalAmount := round2 (subtotal - discountAmount + taxAmount)
        -- write 0: INSERT INTO orders
        if failAt = some 0 then (.dbError, st)
        else
          let st1 : Store := { st with orders := st.orders ++
            [⟨orderId, humanId, orderNumber, "pending", subtotal,
              discountAmount, taxAmount, totalAmount⟩] }
          -- writes 1..n: INSERT INTO order_items, one per cart row
          match insertOrderItems orderId st.cart failAt 1 st1 with
          | .error stFail => (.dbError, stFail)
          | .ok (st2, k) =>
              let couponWrites : Except Store (Store × Nat) :=
                match cop with
                | none => .ok (st2, k)
                | some (c, d) => applyCouponWrites orderId c d failAt k st2
              match couponWrites with
              | .error stFail => (.dbError, stFail)
              | .ok (st5, k5) =>
                  -- DELETE FROM cart_items WHERE human_id = ?
                  if failAt = some k5 then (.dbError, st5)
                  else (.created orderId totalAmount, { st5 with cart := [] })

end Checkout

theorem IsCents.add {x y : ℚ} (hx : IsCents x) (hy : IsCents y) :
    IsCents (x + y) := by
  obtain ⟨n, rfl⟩ := hx
  obtain ⟨m, rfl⟩ := hy
  exact ⟨n + m, by push_cast; ring⟩

theorem IsCents.natMul {x : ℚ} (hx : IsCents x) (k : ℕ) :
    IsCents (x * k) := by
  obtain ⟨n, rfl⟩ := hx
  exact ⟨n * k, by push_cast; ring⟩

theorem IsCents.zero : IsCents 0 := ⟨0, by norm_num⟩

theorem IsCents.min {x y : ℚ} (hx : IsCents x) (hy : IsCents y) :
    IsCents (min x y) := by
  rcases le_total x y with h | h
  · rwa [min_eq_left h]
  · rwa [min_eq_right h]

theorem cartFoldl_cents (items : List Checkout.CartLine) :
    ∀ acc : ℚ, IsCents acc → (∀ i ∈ items, IsCents i.price) →
      IsCents (items.foldl
        (fun sum item => sum + item.price * (item.quantity : ℚ)) acc) := by
  induction items with
  | nil => intro acc hacc _; simpa using hacc
  | cons i rest ih =>
      intro acc hacc hp
      simp only [List.foldl_cons]
      exact ih _ (hacc.add ((hp i (by simp)).natMul i.quantity))
        (fun j hj => hp j (by simp [hj]))

theorem cartSubtotal_cents {items : List Checkout.CartLine}
    (hp : ∀ i ∈ items, IsCents i.price) :
    IsCents (Checkout.cartSubtotal items) :=
  cartFoldl_cents items 0 IsCents.zero hp

theorem cartFoldl_nonneg (items : List Checkout.CartLine) :
    ∀ acc : ℚ, 0 ≤ acc → (∀ i ∈ items, 0 ≤ i.price) →
      0 ≤ items.foldl
        (fun sum item => sum + item.price * (item.quantity : ℚ)) acc := by
  induction items with
  | nil => intro acc hacc _; simpa using hacc
  | cons i rest ih =>
      intro acc hacc hp
      simp only [List.foldl_cons]
      refine ih _ ?_ (fun j hj => hp j (by simp [hj]))
      have hi : 0 ≤ i.price := hp i (by simp)
      have : (0:ℚ) ≤ i.price * (i.quantity : ℚ) := by positivity
      linarith

theorem cartSubtotal_nonneg {items : List Checkout.CartLine}
    (hp : ∀ i ∈ items, 0 ≤ i.price) :
    0 ≤ Checkout.cartSubtotal items :=
  cartFoldl_nonneg items 0 le_rfl hp

/-- The SAVE20 coupon of spec scenario 3: percentage 20%, max discount 10. -/
def save20 : Checkout.Coupon :=
  { id := 1, code := "SAVE20", discount_type := .percentage,
    discount_value := 20, max_discount_amount := some 10 }

/-- C3: for every non-empty cart, checkout computes
`tax = round2((subtotal - discount) * 0.08)` after the discount and
`total = round2(subtotal - discount + tax)`; in particular the SAVE20
coupon (20 percent, capped at 10 dollars) on a 100 dollar subtotal
yields discount 10 and total 97.20. -/
theorem checkout_tax_after_discount_and_total
    (items : List Checkout.CartLine) (coupons : List Checkout.Coupon)
    (couponCode : Option String) (now : ℤ) (s d t tot : ℚ)
    (h : Checkout.previewOrder items coupons couponCode now = .ok s d t tot) :
    t = round2 ((Checkout.cartSubtotal items - d) * (8/100)) ∧
    tot = round2 (Checkout.cartSubtotal items - d + t) ∧
    Checkout.previewOrder [⟨7, 1, 100⟩] [save20] (some "SAVE20") 0
      = .ok 100 10 (36/5) (486/5) := by
  have hconc : Checkout.previewOrder [⟨7, 1, 100⟩] [save20] (some "SAVE20") 0
      = .ok 100 10 (36/5) (486/5) := by
    simp only [Checkout.previewOrder, Checkout.validateCoupon,
      Checkout.couponQueryMatches, Checkout.rawDiscount, Checkout.capApply, Checkout.cartSubtotal,
      Checkout.qTruthy, Checkout.nTruthy, Checkout.mkTotals, Checkout.taxRate,
      save20, List.find?, List.isEmpty, List.foldl]
    norm_num [round2, jsRound]
  have hmk : ∀ s0 d0 : ℚ, Checkout.mkTotals s0 d0 = .ok s d t tot →
      t = round2 ((s0 - d) * Checkout.taxRate) ∧ tot = round2 (s0 - d + t) := by
    intro s0 d0 hm
    unfold Checkout.mkTotals at hm
    rw [Checkout.PreviewResult.ok.injEq] at hm
    obtain ⟨hs0, hd0, ht0, htot0⟩ := hm
    subst hd0
    refine ⟨ht0.symm, ?_⟩
    rw [← htot0, ← ht0]
  unfold Checkout.previewOrder at h
  split at h
  · exact absurd h (by simp)
  · split at h
    · obtain ⟨ht, htot⟩ := hmk _ _ h
      exact ⟨by unfold Checkout.taxRate at ht; exact ht, htot, hconc⟩
    · split at h
      · exact absurd h (by simp)
      · obtain ⟨ht, htot⟩ := hmk _ _ h
        exact ⟨by unfold Checkout.taxRate at ht; exact ht, htot, hconc⟩

/-- Witness for the tax/total theorem at the SAVE20 scenario. -/
theorem checkout_tax_after_discount_and_total_witness :
    (36/5 : ℚ) = round2 ((Checkout.cartSubtotal [⟨7, 1, 100⟩] - 10) * (8/100)) ∧
    (486/5 : ℚ) = round2 (Checkout.cartSubtotal [⟨7, 1, 100⟩] - 10 + 36/5) ∧
    Checkout.previewOrder [⟨7, 1, 100⟩] [save20] (some "SAVE20") 0
      = .ok 100 10 (36/5) (486/5) :=
  checkout_tax_after_discount_and_total [⟨7, 1, 100⟩] [save20]
    (some "SAVE20") 0 100 10 (36/5) (486/5)
    (by
      simp only [Checkout.previewOrder, Checkout.validateCoupon,
        Checkout.couponQueryMatches, Checkout.rawDiscount, Checkout.capApply,
        Checkout.cartSubtotal, Checkout.qTruthy, Checkout.nTruthy,
        Checkout.mkTotals, Checkout.taxRate, save20, List.find?,
        List.isEmpty, List.foldl]
      norm_num [round2, jsRound])

/-- A percentage coupon with rate 200 and no maximum-discount cap:
nothing in the schema or the checkout controller forbids it. -/
def c200 : Checkout.Coupon :=
  { id := 2, code := "C200", discount_type := .percentage,
    discount_value := 200 }

/-- C1 counterexample: the 200 percent coupon is accepted by
`validateCoupon` against the 10 dollar subtotal, yet the discount it
computes is 20 (exceeding the subtotal) and the checkout total is
negative (-10.80). -/
theorem coupon_rate200_discount_exceeds_subtotal :
    Checkout.validateCoupon [c200] "C200" 10 0 = .valid c200 20 ∧
    Checkout.cartSubtotal [⟨7, 1, 10⟩] = 10 ∧
    Checkout.previewOrder [⟨7, 1, 10⟩] [c200] (some "C200") 0
      = .ok 10 20 (-4/5) (-54/5) ∧
    (10 : ℚ) < 20 ∧ (-54/5 : ℚ) < 0 := by
  refine ⟨?_, ?_, ?_, by norm_num, by norm_num⟩
  · simp only [Checkout.validateCoupon, Checkout.couponQueryMatches,
      Checkout.rawDiscount, Checkout.capApply, Checkout.qTruthy, Checkout.nTruthy, c200,
      List.find?]
    norm_num [round2, jsRound]
  · simp only [Checkout.cartSubtotal, List.foldl]
    norm_num
  · simp only [Checkout.previewOrder, Checkout.validateCoupon,
      Checkout.couponQueryMatches, Checkout.rawDiscount, Checkout.capApply,
      Checkout.cartSubtotal, Checkout.qTruthy, Checkout.nTruthy,
      Checkout.mkTotals, Checkout.taxRate, c200, List.find?,
      List.isEmpty, List.foldl]
    norm_num [round2, jsRound]

/-- C1 (amended): for carts of non-negative whole-cent prices and a
coupon accepted by `validateCoupon`, if the coupon is fixed-amount (any
value, itself whole cents), or percentage with rate at most 100, or
percentage whose max-discount cap is at most the subtotal, then the
applied discount never exceeds the subtotal, a fixed-amount discount
equals `min(value, subtotal)`, and the checkout total is non-negative.
Without the rate/cap hypothesis the claim fails, see
`coupon_rate200_discount_exceeds_subtotal`. -/
theorem checkout_discount_clamped
    (items : List Checkout.CartLine) (coupons : List Checkout.Coupon)
    (code : String) (now : ℤ) (c : Checkout.Coupon) (d : ℚ)
    (hne : items ≠ [])
    (hp : ∀ i ∈ items, 0 ≤ i.price ∧ IsCents i.price)
    (hv : Checkout.validateCoupon coupons code
      (Checkout.cartSubtotal items) now = .valid c d)
    (hcv : IsCents c.discount_value)
    (hrate : c.discount_type = .percentage →
      c.discount_value ≤ 100 ∨
        ∃ cap, c.max_discount_amount = some cap ∧ cap ≠ 0 ∧
          cap ≤ Checkout.cartSubtotal items) :
    d ≤ Checkout.cartSubtotal items ∧
    (c.discount_type = .fixed_amount →
      d = min c.discount_value (Checkout.cartSubtotal items)) ∧
    Checkout.previewOrder items coupons (some code) now
      = Checkout.mkTotals (Checkout.cartSubtotal items) d ∧
    0 ≤ round2 (Checkout.cartSubtotal items - d +
      round2 ((Checkout.cartSubtotal items - d) * Checkout.taxRate)) := by
  have hs0 : 0 ≤ Checkout.cartSubtotal items :=
    cartSubtotal_nonneg (fun i hi => (hp i hi).1)
  have hsc : IsCents (Checkout.cartSubtotal items) :=
    cartSubtotal_cents (fun i hi => (hp i hi).2)
  -- extract the discount expression from validateCoupon
  have hd : d = round2 (Checkout.rawDiscount c (Checkout.cartSubtotal items)) := by
    unfold Checkout.validateCoupon at hv
    split at hv
    · exact absurd hv (by simp)
    · split at hv
      · exact absurd hv (by simp)
      · split at hv
        · exact absurd hv (by simp)
        · rw [Checkout.CouponValidation.valid.injEq] at hv
          obtain ⟨hc, hdd⟩ := hv
          subst hc
          exact hdd.symm
  -- the raw discount is bounded by the subtotal
  have hraw : Checkout.rawDiscount c (Checkout.cartSubtotal items)
      ≤ Checkout.cartSubtotal items := by
    cases hty : c.discount_type with
    | fixed_amount =>
        rw [Checkout.rawDiscount_fixed hty]
        exact min_le_right _ _
    | percentage =>
        rw [Checkout.rawDiscount_percentage hty]
        rcases hrate hty with hle | ⟨cap, hcap, hcap0, hcaple⟩
        · exact Checkout.capApply_le (by nlinarith)
        · rw [hcap]
          exact Checkout.capApply_some_le hcaple hcap0
  have hds : d ≤ Checkout.cartSubtotal items := by
    rw [hd]
    calc round2 (Checkout.rawDiscount c (Checkout.cartSubtotal items))
        ≤ round2 (Checkout.cartSubtotal items) := round2_mono hraw
      _ = Checkout.cartSubtotal items := round2_cents hsc
  refine ⟨hds, ?_, ?_, ?_⟩
  · intro hty
    rw [hd, Checkout.rawDiscount_fixed hty]
    exact round2_cents (hcv.min hsc)
  · unfold Checkout.previewOrder
    rw [if_neg (by simpa using hne)]
    simp only [hv]
  · have htax : 0 ≤ round2 ((Checkout.cartSubtotal items - d)
        * Checkout.taxRate) := by
      apply round2_nonneg
      unfold Checkout.taxRate
      nlinarith
    apply round2_nonneg
    linarith

/-- Witness for the discount-clamp theorem at the SAVE20 scenario. -/
theorem checkout_discount_clamped_witness :
    (10 : ℚ) ≤ Checkout.cartSubtotal [⟨7, 1, 100⟩] :=
  (checkout_discount_clamped [⟨7, 1, 100⟩] [save20] "SAVE20" 0 save20 10
    (by simp)
    (by intro i hi; simp only [List.mem_singleton] at hi; subst hi
        exact ⟨by norm_num, ⟨10000, by norm_num⟩⟩)
    (by
      simp only [Checkout.validateCoupon, Checkout.couponQueryMatches,
        Checkout.rawDiscount, Checkout.capApply, Checkout.cartSubtotal, Checkout.qTruthy,
        Checkout.nTruthy, save20, List.find?, List.foldl]
      norm_num [round2, jsRound])
    ⟨2000, by rw [show save20.discount_value = 20 from rfl]; norm_num⟩
    (fun _ => Or.inl (by
      rw [show save20.discount_value = 20 from rfl]; norm_num))).1

/-- A two-line cart about to be checked out, with empty order tables. -/
def preCheckoutStore : Checkout.Store :=
  { cart := [⟨1, 1, 10⟩, ⟨2, 2, 5⟩], coupons := [], orders := [],
    order_items := [], order_coupons := [] }

/-- C2: `createOrder` opens no transaction, so a database error during
the second order_items insert (write index 2) leaves the already
inserted order row and the first order_items row persisted and the cart
uncleared — order creation is not atomic and nothing is rolled back. -/
theorem createOrder_midway_failure_leaves_partial_order :
    (Checkout.createOrder preCheckoutStore 42 none 0 100 "ORD-1" (some 2)).1
      = .dbError ∧
    (Checkout.createOrder preCheckoutStore 42 none 0 100 "ORD-1"
      (some 2)).2.orders.length = 1 ∧
    (Checkout.createOrder preCheckoutStore 42 none 0 100 "ORD-1"
      (some 2)).2.order_items.length = 1 ∧
    (Checkout.createOrder preCheckoutStore 42 none 0 100 "ORD-1"
      (some 2)).2.cart = preCheckoutStore.cart := by
  have h : Checkout.createOrder preCheckoutStore 42 none 0 100 "ORD-1" (some 2)
      = (.dbError,
         { cart := preCheckoutStore.cart, coupons := [],
           orders := [⟨100, 42, "ORD-1", "pending",
             Checkout.cartSubtotal preCheckoutStore.cart,
             0,
             round2 ((Checkout.cartSubtotal preCheckoutStore.cart - 0)
               * Checkout.taxRate),
             round2 (Checkout.cartSubtotal preCheckoutStore.cart - 0 +
               round2 ((Checkout.cartSubtotal preCheckoutStore.cart - 0)
                 * Checkout.taxRate))⟩],
           order_items := [⟨100, 1, 1, 10, 10 * (1:ℕ)⟩],
           order_coupons := [] }) := by
    simp [Checkout.createOrder, Checkout.insertOrderItems, preCheckoutStore]
  rw [h]
  simp

/-! ## Cart management (src/unnamed/part_004, migration 010) -/

namespace Cart

/-- A row of the `cart_items` table after migration 010: both
`product_id` and `song_id` are nullable. -/
structure CartItemRow where
  id : Nat
  human_id : Nat
  product_id : Option Nat
  song_id : Option Nat
  quantity : Nat
  deriving DecidableEq, Repr

/-- The CHECK constraint of `cart_items` from migration 010:
`CHECK (product_id IS NOT NULL OR song_id IS NOT NULL)`. -/
def cartItemsCheck (r : CartItemRow) : Bool :=
  decide (r.product_id ≠ none ∨ r.song_id ≠ none)

/-- The lookup predicate of `addToCart`:
`WHERE human_id = ? AND product_id IS ? AND song_id IS ?` — the `IS`
comparison treats NULL as matching NULL. -/
def rowMatches (r : CartItemRow) (humanId : Nat)
    (productId songId : Option Nat) : Bool :=
  r.human_id == humanId && r.product_id == productId && r.song_id == songId

/-- The AUTOINCREMENT primary key for a new `cart_items` row: one more
than the largest id in the table. -/
def freshId (cart : List CartItemRow) : Nat :=
  (cart.map (fun r => r.id)).foldr max 0 + 1

/-- Outcome of `addToCart`. -/
inductive AddResult where
  | validationError (error : String)
  | added
  deriving DecidableEq, Repr

/-- `addToCart` from src/unnamed/part_004.  The request carries parsed
`productId` and `songId` (`none` models an absent or falsy field).
Validation rejects only the case where both are missing; then the
matching row is incremented, or a fresh quantity-1 row is inserted. -/
def addToCart (cart : List CartItemRow) (humanId : Nat)
    (productId songId : Option Nat) : AddResult × List CartItemRow :=
  if productId = none ∧ songId = none then
    (.validationError "Must specify either productId or songId", cart)
  else
    match cart.find? (fun r => rowMatches r humanId productId songId) with
    | some existing =>
        (.added, cart.map (fun r =>
          if r.id = existing.id then { r with quantity := r.quantity + 1 }
          else r))
    | none =>
        (.added, cart ++ [⟨freshId cart, humanId, productId, songId, 1⟩])

/-- `addToCart` iterated n times for the same person and item. -/
def addRepeatedly (cart : List CartItemRow) (humanId : Nat)
    (productId songId : Option Nat) : Nat → List CartItemRow
  | 0 => cart
  | n + 1 => (addToCart (addRepeatedly cart humanId productId songId n)
      humanId productId songId).2

theorem le_foldr_max {l : List Nat} {a : Nat} (h : a ∈ l) :
    a ≤ l.foldr max 0 := by
  induction l with
  | nil => cases h
  | cons b t ih =>
      rcases List.mem_cons.mp h with rfl | hmem
      · exact le_max_left _ _
      · exact le_trans (ih hmem) (le_max_right _ _)

theorem id_lt_freshId {cart : List CartItemRow} {r : CartItemRow}
    (h : r ∈ cart) : r.id < freshId cart := by
  unfold freshId
  have : r.id ∈ cart.map (fun r => r.id) := List.mem_map_of_mem _ h
  exact Nat.lt_succ_of_le (le_foldr_max this)

theorem rowMatches_self (idv humanId : Nat) (p s : Option Nat) (q : Nat) :
    rowMatches ⟨idv, humanId, p, s, q⟩ humanId p s = true := by
  simp [rowMatches]

/-- Closed form of repeated adds starting from a cart with no matching
row: the result is the original cart plus a single fresh row whose
quantity is the number of adds. -/
theorem addRepeatedly_closed_form (cart : List CartItemRow) (humanId : Nat)
    (p s : Option Nat)
    (hps : ¬(p = none ∧ s = none))
    (h0 : ∀ r ∈ cart, rowMatches r humanId p s = false) :
    ∀ n : Nat, 1 ≤ n →
      addRepeatedly cart humanId p s n
        = cart ++ [⟨freshId cart, humanId, p, s, n⟩] := by
  intro n hn
  induction n with
  | zero => cases hn
  | succ m ih =>
      by_cases hm : 1 ≤ m
      · have hcf := ih hm
        show (addToCart (addRepeatedly cart humanId p s m) humanId p s).2
          = cart ++ [⟨freshId cart, humanId, p, s, m + 1⟩]
        rw [hcf]
        unfold addToCart
        rw [if_neg hps]
        have hfind : (cart ++ [(⟨freshId cart, humanId, p, s, m⟩
              : CartItemRow)]).find? (fun r => rowMatches r humanId p s)
            = some (⟨freshId cart, humanId, p, s, m⟩ : CartItemRow) := by
          rw [List.find?_append]
          rw [List.find?_eq_none.mpr (fun r hr => by simp [h0 r hr])]
          simp [List.find?, rowMatches_self]
        rw [hfind]
        simp only [List.map_append, List.map_cons, List.map_nil]
        have hcartmap : cart.map (fun r =>
            if r.id = freshId cart then { r with quantity := r.quantity + 1 }
            else r) = cart := by
          have : ∀ r ∈ cart, (if r.id = freshId cart
              then { r with quantity := r.quantity + 1 } else r) = r := by
            intro r hr
            rw [if_neg (Nat.ne_of_lt (id_lt_freshId hr))]
          calc cart.map (fun r => if r.id = freshId cart
                then { r with quantity := r.quantity + 1 } else r)
              = cart.map id := List.map_congr_left this
            _ = cart := List.map_id cart
        rw [hcartmap]
        simp
      · have hm0 : m = 0 := by omega
        subst hm0
        show (addToCart cart humanId p s).2
          = cart ++ [⟨freshId cart, humanId, p, s, 1⟩]
        unfold addToCart
        rw [if_neg hps]
        rw [List.find?_eq_none.mpr (fun r hr => by simp [h0 r hr])]

end Cart

/-- C4: starting from a cart with no row for the (person, item) pair,
adding the same item N times (N at least 1) yields exactly one matching
cart row, with quantity N; the first add appends a fresh quantity-1 row
and each later add increments it. -/
theorem cart_add_same_item_accumulates
    (cart : List Cart.CartItemRow) (humanId : Nat) (p s : Option Nat)
    (hps : ¬(p = none ∧ s = none))
    (h0 : ∀ r ∈ cart, Cart.rowMatches r humanId p s = false)
    (n : Nat) (hn : 1 ≤ n) :
    (Cart.addRepeatedly cart humanId p s n).filter
        (fun r => Cart.rowMatches r humanId p s)
      = [⟨Cart.freshId cart, humanId, p, s, n⟩] ∧
    Cart.addRepeatedly cart humanId p s 1
      = cart ++ [⟨Cart.freshId cart, humanId, p, s, 1⟩] := by
  constructor
  · rw [Cart.addRepeatedly_closed_form cart humanId p s hps h0 n hn]
    rw [List.filter_append]
    rw [List.filter_eq_nil_iff.mpr (fun r hr => by simp [h0 r hr])]
    simp [Cart.rowMatches_self]
  · exact Cart.addRepeatedly_closed_form cart humanId p s hps h0 1 le_rfl

/-- Witness for the cart accumulation theorem: person 42 adds product 7
three times to an empty cart. -/
theorem cart_add_same_item_accumulates_witness :
    (Cart.addRepeatedly [] 42 (some 7) none 3).filter
        (fun r => Cart.rowMatches r 42 (some 7) none)
      = [⟨Cart.freshId [], 42, some 7, none, 3⟩] ∧
    Cart.addRepeatedly [] 42 (some 7) none 1
      = [] ++ [⟨Cart.freshId [], 42, some 7, none, 1⟩] :=
  cart_add_same_item_accumulates [] 42 (some 7) none
    (by simp) (by simp) 3 (by norm_num)

/-- C8 counterexample: a request supplying both a product and a song
reference passes `addToCart` validation (only the both-absent case is
rejected) and inserts a single cart row carrying both references; that
row also satisfies the cart_items CHECK constraint of migration 010,
which only requires at least one reference. -/
theorem cart_add_both_refs_accepted :
    Cart.addToCart [] 42 (some 1) (some 2)
      = (.added, [⟨1, 42, some 1, some 2, 1⟩]) ∧
    Cart.cartItemsCheck ⟨1, 42, some 1, some 2, 1⟩ = true := by
  constructor
  · unfold Cart.addToCart
    rw [if_neg (by simp)]
    simp [List.find?, Cart.freshId]
  · simp [Cart.cartItemsCheck]

/-- C8 (amended): cart add requires at least one of product/song: a
request supplying neither is rejected with a validation error and
leaves the cart unchanged, while a request supplying both is accepted
and (when no matching row exists) results in one cart row carrying both
references, a row the CHECK constraint admits. -/
theorem cart_add_rejects_neither_accepts_both
    (cart : List Cart.CartItemRow) (humanId p0 s0 : Nat)
    (h0 : ∀ r ∈ cart, Cart.rowMatches r humanId (some p0) (some s0) = false) :
    Cart.addToCart cart humanId none none
      = (.validationError "Must specify either productId or songId", cart) ∧
    Cart.addToCart cart humanId (some p0) (some s0)
      = (.added, cart ++ [⟨Cart.freshId cart, humanId, some p0, some s0, 1⟩]) ∧
    Cart.cartItemsCheck ⟨Cart.freshId cart, humanId, some p0, some s0, 1⟩
      = true := by
  refine ⟨?_, ?_, ?_⟩
  · unfold Cart.addToCart
    rw [if_pos ⟨rfl, rfl⟩]
  · unfold Cart.addToCart
    rw [if_neg (by simp)]
    rw [List.find?_eq_none.mpr (fun r hr => by simp [h0 r hr])]
  · simp [Cart.cartItemsCheck]

/-- Witness for the both-or-neither theorem on an empty cart. -/
theorem cart_add_rejects_neither_accepts_both_witness :
    Cart.addToCart [] 9 none none
      = (.validationError "Must specify either productId or songId", []) ∧
    Cart.addToCart [] 9 (some 5) (some 6)
      = (.added, [] ++ [⟨Cart.freshId [], 9, some 5, some 6, 1⟩]) ∧
    Cart.cartItemsCheck ⟨Cart.freshId [], 9, some 5, some 6, 1⟩ = true :=
  cart_add_rejects_neither_accepts_both [] 9 5 6 (by simp)

/-! ## Migration runner (src/db/migrate.js) -/

namespace Migrate

/-- An entry of the hard-coded `migrations` array in migrate.js. -/
structure MigrationDef where
  id : String
  name : String
  deriving DecidableEq, Repr

/-- The declared migration list of migrate.js, in declared order. -/
def migrations : List MigrationDef :=
  [⟨"001", "create-new-schema"⟩,
   ⟨"002", "migrate-users-to-humans"⟩,
   ⟨"003", "cleanup-old-schema"⟩,
   ⟨"004", "create-orders-and-coupons"⟩,
   ⟨"005", "add-songs-and-product-types"⟩]

/-- `pending = migrations.filter(m => !executed.includes(m.id))`: the
known migrations whose id is not in the ledger, in declared order. -/
def pendingOf (ledger : List String) : List MigrationDef :=
  migrations.filter (fun m => !ledger.contains m.id)

/-- The loop of `runMigrations`: run each pending migration in order;
after each success record its id in the ledger; on the first failure
stop immediately (process.exit) leaving earlier recordings in place.
Returns the final ledger, the migrations applied in this run, and
whether the whole run succeeded. -/
def runPending (succeeds : String → Bool) :
    List MigrationDef → List String → List MigrationDef →
      List String × List MigrationDef × Bool
  | [], ledger, applied => (ledger, applied, true)
  | m :: rest, ledger, applied =>
      if succeeds m.id then
        runPending succeeds rest (ledger ++ [m.id]) (applied ++ [m])
      else (ledger, applied, false)

/-- `runMigrations` from migrate.js: read the ledger once, compute the
pending list, then apply it in declared order. -/
def runMigrations (ledger : List String) (succeeds : String → Bool) :
    List String × List MigrationDef × Bool :=
  runPending succeeds (pendingOf ledger) ledger []

/-- `showStatus` from migrate.js reports a known migration as executed
iff its id is in the ledger. -/
def statusExecuted (ledger : List String) (m : MigrationDef) : Bool :=
  ledger.contains m.id

/-- Characterization of the run loop: it applies exactly the longest
prefix of the pending list on which `succeeds` holds, appends those ids
to the ledger in order, and succeeds overall iff nothing failed. -/
theorem runPending_spec (succeeds : String → Bool) :
    ∀ (pend : List MigrationDef) (ledger : List String)
      (applied : List MigrationDef),
      runPending succeeds pend ledger applied
        = (ledger ++ (pend.takeWhile (fun m => succeeds m.id)).map
            (fun m => m.id),
           applied ++ pend.takeWhile (fun m => succeeds m.id),
           pend.all (fun m => succeeds m.id)) := by
  intro pend
  induction pend with
  | nil => intro ledger applied; simp [runPending]
  | cons m rest ih =>
      intro ledger applied
      unfold runPending
      by_cases hm : succeeds m.id
      · rw [if_pos hm, ih]
        simp [List.takeWhile_cons, hm, List.all_cons]
      · rw [if_neg hm]
        simp [List.takeWhile_cons, hm, List.all_cons]

theorem contains_iff_mem {l : List String} {a : String} :
    l.contains a = true ↔ a ∈ l := List.elem_iff

theorem takeWhile_const_true {α : Type} (l : List α) :
    l.takeWhile (fun _ => true) = l := by
  induction l with
  | nil => rfl
  | cons a t ih => simp [List.takeWhile_cons, ih]

theorem pendingOf_append_all (ledger : List String) :
    pendingOf (ledger ++ (pendingOf ledger).map (fun m => m.id)) = [] := by
  rw [pendingOf, List.filter_eq_nil_iff]
  intro m hm
  simp only [Bool.not_eq_true']
  rw [← ne_eq, Bool.ne_false_iff, contains_iff_mem, List.mem_append]
  by_cases hin : m.id ∈ ledger
  · left; exact hin
  · right
    rw [List.mem_map]
    refine ⟨m, ?_, rfl⟩
    rw [pendingOf, List.mem_filter]
    refine ⟨hm, ?_⟩
    simp only [Bool.not_eq_true']
    exact Bool.eq_false_iff.mpr (fun hc => hin (contains_iff_mem.mp hc))

end Migrate

/-- C5: `up` applies exactly the pending migrations (all known minus
the ledger) in declared order, recording each id after its success and
stopping at the first failure; immediately re-running `up` after a
fully successful run applies no migration and succeeds as a no-op; and
`status` reports a known migration as executed iff its id is in the
ledger. -/
theorem migrate_up_idempotent_and_status (ledger : List String)
    (succeeds : String → Bool) :
    (Migrate.runMigrations ledger succeeds).1
      = ledger ++ ((Migrate.pendingOf ledger).takeWhile
          (fun m => succeeds m.id)).map (fun m => m.id) ∧
    (Migrate.runMigrations ledger (fun _ => true)).2.1
      = Migrate.pendingOf ledger ∧
    Migrate.runMigrations
        (Migrate.runMigrations ledger (fun _ => true)).1 succeeds
      = ((Migrate.runMigrations ledger (fun _ => true)).1, [], true) ∧
    (∀ m ∈ Migrate.migrations,
      Migrate.statusExecuted (Migrate.runMigrations ledger succeeds).1 m = true
        ↔ m.id ∈ (Migrate.runMigrations ledger succeeds).1) := by
  have hrun := Migrate.runPending_spec succeeds (Migrate.pendingOf ledger)
    ledger []
  have hruntt := Migrate.runPending_spec (fun _ => true)
    (Migrate.pendingOf ledger) ledger []
  have h1 : Migrate.runMigrations ledger (fun _ => true)
      = (ledger ++ (Migrate.pendingOf ledger).map (fun m => m.id),
         Migrate.pendingOf ledger, true) := by
    rw [Migrate.runMigrations, hruntt]
    rw [Migrate.takeWhile_const_true]
    simp
  refine ⟨?_, ?_, ?_, ?_⟩
  · rw [Migrate.runMigrations, hrun]
  · rw [h1]
  · rw [h1]
    rw [Migrate.runMigrations, Migrate.pendingOf_append_all]
    rw [Migrate.runPending_spec]
    simp
  · intro m _
    rw [Migrate.statusExecuted]
    exact Migrate.contains_iff_mem

/-- Witness for the migration-runner theorem: with migrations 001-003
already in the ledger, status after an all-success run reports 002 as
executed iff "002" is in the new ledger. -/
theorem migrate_up_idempotent_and_status_witness :
    Migrate.statusExecuted
        (Migrate.runMigrations ["001", "002", "003"] (fun _ => true)).1
        ⟨"002", "migrate-users-to-humans"⟩ = true
      ↔ "002" ∈ (Migrate.runMigrations ["001", "002", "003"]
        (fun _ => true)).1 :=
  (migrate_up_idempotent_and_status ["001", "002", "003"]
      (fun _ => true)).2.2.2
    ⟨"002", "migrate-users-to-humans"⟩ (by simp [Migrate.migrations])

/-! ## RBAC permission check (src/middleware, `requirePermission`) -/

namespace Rbac

/-- A row of `human_site_roles` (migration 001): person-to-role
assignment with optional expiry. -/
structure RoleAssignment where
  human_id : Nat
  site_role_id : Nat
  assigned_by : Option Nat := none
  expires_at : Option ℤ := none
  deriving DecidableEq, Repr

/-- A row of `site_role_permissions`. -/
structure RolePermission where
  site_role_id : Nat
  permission_id : Nat
  deriving DecidableEq, Repr

/-- A row of `permissions`. -/
structure Permission where
  id : Nat
  permission_name : String
  deriving DecidableEq, Repr

/-- The RBAC tables the permission query joins. -/
structure RbacDB where
  human_site_roles : List RoleAssignment
  site_role_permissions : List RolePermission
  permissions : List Permission
  deriving DecidableEq, Repr

/-- The SELECT of `requirePermission`: a three-way join over
human_site_roles, site_role_permissions and permissions, filtered on
the person, the permission name, and
`expires_at IS NULL OR expires_at > datetime('now')`. -/
def hasPermissionQuery (db : RbacDB) (now : ℤ) (humanId : Nat)
    (permissionName : String) : Bool :=
  db.human_site_roles.any (fun a =>
    a.human_id == humanId &&
    (match a.expires_at with | none => true | some t => decide (now < t)) &&
    db.site_role_permissions.any (fun rp =>
      rp.site_role_id == a.site_role_id &&
      db.permissions.any (fun p =>
        p.id == rp.permission_id && p.permission_name == permissionName)))

/-- The `requirePermission` middleware as a state transformer: it runs
the read-only query and touches nothing. -/
def requirePermission (db : RbacDB) (now : ℤ) (humanId : Nat)
    (permissionName : String) : Bool × RbacDB :=
  (hasPermissionQuery db now humanId permissionName, db)

end Rbac

/-- C7: the permission check succeeds iff some non-expired role
assignment of the person (expiry NULL or strictly after the current
time, evaluated at check time) leads to a role linked to the named
permission; and the check mutates no state. -/
theorem permission_check_iff_join_and_pure (db : Rbac.RbacDB) (now : ℤ)
    (humanId : Nat) (permissionName : String) :
    (Rbac.hasPermissionQuery db now humanId permissionName = true
      ↔ ∃ a ∈ db.human_site_roles, a.human_id = humanId ∧
          (a.expires_at = none ∨ ∃ t, a.expires_at = some t ∧ now < t) ∧
          ∃ rp ∈ db.site_role_permissions, rp.site_role_id = a.site_role_id ∧
            ∃ p ∈ db.permissions, p.id = rp.permission_id ∧
              p.permission_name = permissionName) ∧
    (Rbac.requirePermission db now humanId permissionName).2 = db := by
  constructor
  · rw [Rbac.hasPermissionQuery, List.any_eq_true]
    constructor
    · rintro ⟨a, ha, hcond⟩
      simp only [Bool.and_eq_true, beq_iff_eq, List.any_eq_true] at hcond
      obtain ⟨⟨hh, hexp⟩, rp, hrp, hrole, p, hp, hpid, hpn⟩ := hcond
      refine ⟨a, ha, hh, ?_, rp, hrp, hrole, p, hp, hpid, hpn⟩
      cases hx : a.expires_at with
      | none => exact Or.inl rfl
      | some t =>
          right
          refine ⟨t, rfl, ?_⟩
          rw [hx] at hexp
          exact of_decide_eq_true hexp
    · rintro ⟨a, ha, hh, hexp, rp, hrp, hrole, p, hp, hpid, hpn⟩
      refine ⟨a, ha, ?_⟩
      simp only [Bool.and_eq_true, beq_iff_eq, List.any_eq_true]
      refine ⟨⟨hh, ?_⟩, rp, hrp, hrole, p, hp, hpid, hpn⟩
      rcases hexp with hnone | ⟨t, hsome, hlt⟩
      · rw [hnone]
      · rw [hsome]
        exact decide_eq_true hlt
  · rfl

/-- A one-assignment RBAC database for the permission-check witness. -/
def rbacExample : Rbac.RbacDB :=
  { human_site_roles := [{ human_id := 1, site_role_id := 2 }],
    site_role_permissions := [⟨2, 3⟩],
    permissions := [⟨3, "products.create"⟩] }

/-- Witness for the permission-check theorem: person 1 holds
products.create through role 2 in the example database. -/
theorem permission_check_iff_join_and_pure_witness :
    Rbac.hasPermissionQuery rbacExample 0 1 "products.create" = true :=
  (permission_check_iff_join_and_pure rbacExample 0 1
    "products.create").1.mpr
    ⟨{ human_id := 1, site_role_id := 2 }, by simp [rbacExample], rfl,
     Or.inl rfl, ⟨2, 3⟩, by simp [rbacExample], rfl, ⟨3, "products.create"⟩,
     by simp [rbacExample], rfl, rfl⟩

/-! ## Catalog bridge management (src/unnamed/part_006, migration 005) -/

namespace Catalog

/-- A product row, reduced to the columns the link/unlink handlers
read. -/
structure ProductRow where
  id : Nat
  type : String
  deriving DecidableEq, Repr

/-- A song row, reduced to its key. -/
structure SongRow where
  id : Nat
  deriving DecidableEq, Repr

/-- A row of the `album_songs` bridge table (migration 005); the
(album_id, song_id) pair is the primary key. -/
structure AlbumSongRow where
  album_id : Nat
  song_id : Nat
  track_number : Nat
  disc_number : Nat
  deriving DecidableEq, Repr

/-- The catalog tables the link/unlink handlers touch. -/
structure CatalogDB where
  products : List ProductRow
  songs : List SongRow
  album_songs : List AlbumSongRow
  deriving DecidableEq, Repr

/-- Outcome of `linkSongToAlbum`. -/
inductive LinkResult where
  | songNotFound
  | albumNotFound
  | conflict (error : String)
  | created
  deriving DecidableEq, Repr

/-- The album lookup of `linkSongToAlbum`:
`SELECT id FROM products WHERE id = ? AND type IN ("Album", "Single", "EP")`. -/
def isMusicProduct (p : ProductRow) (albumId : Nat) : Bool :=
  p.id == albumId &&
    (p.type == "Album" || p.type == "Single" || p.type == "EP")

/-- `linkSongToAlbum` from src/unnamed/part_006: verify the song and
the (music-typed) album exist, reject with a conflict when the
(album, song) pair is already in the bridge, otherwise insert one
bridge row. -/
def linkSongToAlbum (db : CatalogDB) (songId albumId : Nat)
    (track_number disc_number : Nat) : LinkResult × CatalogDB :=
  match db.songs.find? (fun s => s.id == songId) with
  | none => (.songNotFound, db)
  | some _ =>
      match db.products.find? (fun p => isMusicProduct p albumId) with
      | none => (.albumNotFound, db)
      | some _ =>
          match db.album_songs.find?
              (fun r => r.album_id == albumId && r.song_id == songId) with
          | some _ => (.conflict "Song is already on this album", db)
          | none => (.created, { db with album_songs := db.album_songs ++
              [⟨albumId, songId, track_number, disc_number⟩] })

/-- Outcome of `unlinkSongFromAlbum`. -/
inductive UnlinkResult where
  | notFound
  | deleted
  deriving DecidableEq, Repr

/-- `unlinkSongFromAlbum` from src/unnamed/part_006: delete the bridge
row for the pair; report not-found when the DELETE touched zero rows. -/
def unlinkSongFromAlbum (db : CatalogDB) (songId albumId : Nat) :
    UnlinkResult × CatalogDB :=
  let remaining := db.album_songs.filter
    (fun r => !(r.album_id == albumId && r.song_id == songId))
  if remaining.length = db.album_songs.length then (.notFound, db)
  else (.deleted, { db with album_songs := remaining })

end Catalog

/-- C9: linking a song to an album when a bridge row for the pair
already exists fails with a conflict and leaves the database unchanged
(no duplicate track is created), and unlinking a pair that has no
bridge row reports not-found and also leaves the database unchanged. -/
theorem link_conflict_and_unlink_not_found (db : Catalog.CatalogDB)
    (songId albumId track disc : Nat)
    (hsong : ∃ s ∈ db.songs, s.id = songId)
    (halbum : ∃ p ∈ db.products, Catalog.isMusicProduct p albumId = true)
    (hpair : ∃ r ∈ db.album_songs, r.album_id = albumId ∧ r.song_id = songId) :
    Catalog.linkSongToAlbum db songId albumId track disc
      = (.conflict "Song is already on this album", db) ∧
    ∀ db2 : Catalog.CatalogDB,
      (∀ r ∈ db2.album_songs, ¬(r.album_id = albumId ∧ r.song_id = songId)) →
      Catalog.unlinkSongFromAlbum db2 songId albumId = (.notFound, db2) := by
  constructor
  · have h1 : db.songs.find? (fun s => s.id == songId) ≠ none := by
      obtain ⟨s, hs, hid⟩ := hsong
      intro hnone
      rw [List.find?_eq_none] at hnone
      have hns := hnone s hs
      rw [hid] at hns
      exact hns (by simp)
    have h2 : db.products.find? (fun p => Catalog.isMusicProduct p albumId)
        ≠ none := by
      obtain ⟨p, hp, hmp⟩ := halbum
      intro hnone
      rw [List.find?_eq_none] at hnone
      exact (hnone p hp) hmp
    have h3 : db.album_songs.find?
        (fun r => r.album_id == albumId && r.song_id == songId) ≠ none := by
      obtain ⟨r, hr, ha, hs⟩ := hpair
      intro hnone
      rw [List.find?_eq_none] at hnone
      have hnr := hnone r hr
      rw [ha, hs] at hnr
      exact hnr (by simp)
    obtain ⟨s0, hf1⟩ := Option.ne_none_iff_exists'.mp h1
    obtain ⟨p0, hf2⟩ := Option.ne_none_iff_exists'.mp h2
    obtain ⟨r0, hf3⟩ := Option.ne_none_iff_exists'.mp h3
    unfold Catalog.linkSongToAlbum
    rw [hf1, hf2, hf3]
  · intro db2 hnone
    unfold Catalog.unlinkSongFromAlbum
    have hfil : db2.album_songs.filter
        (fun r => !(r.album_id == albumId && r.song_id == songId))
        = db2.album_songs := by
      apply List.filter_eq_self.mpr
      intro r hr
      have h := hnone r hr
      by_cases hA : r.album_id = albumId
      · have hS : ¬ r.song_id = songId := fun hS => h ⟨hA, hS⟩
        simp [hA, hS]
      · simp [hA]
    rw [hfil]
    simp

/-- Witness for the bridge theorem: song 5 is already track 1 of album
3 in a one-row catalog; relinking conflicts and unlinking from the
empty bridge reports not-found. -/
theorem link_conflict_and_unlink_not_found_witness :
    Catalog.linkSongToAlbum
        ⟨[⟨3, "Album"⟩], [⟨5⟩], [⟨3, 5, 1, 1⟩]⟩ 5 3 2 1
      = (.conflict "Song is already on this album",
         ⟨[⟨3, "Album"⟩], [⟨5⟩], [⟨3, 5, 1, 1⟩]⟩) ∧
    Catalog.unlinkSongFromAlbum ⟨[⟨3, "Album"⟩], [⟨5⟩], []⟩ 5 3
      = (.notFound, ⟨[⟨3, "Album"⟩], [⟨5⟩], []⟩) := by
  have h := link_conflict_and_unlink_not_found
    ⟨[⟨3, "Album"⟩], [⟨5⟩], [⟨3, 5, 1, 1⟩]⟩ 5 3 2 1
    ⟨⟨5⟩, by simp, rfl⟩
    ⟨⟨3, "Album"⟩, by simp, by simp [Catalog.isMusicProduct]⟩
    ⟨⟨3, 5, 1, 1⟩, by simp, rfl, rfl⟩
  exact ⟨h.1, h.2 ⟨[⟨3, "Album"⟩], [⟨5⟩], []⟩ (by simp)⟩

/-! ## Identity: email history (src/unnamed/part_002 and part_003,
migration 001) -/

namespace Identity

/-- A row of `email_history` (migration 001), reduced to the columns
the invariant speaks about; `effective_to = none` means currently
active.  Email strings are taken already trimmed. -/
structure EmailRow where
  human_id : Nat
  email : String
  effective_to : Option ℤ
  change_reason : String
  deriving DecidableEq, Repr

/-- The active rows of one person:
`WHERE human_id = ? AND effective_to IS NULL`. -/
def activeOf (db : List EmailRow) (h : Nat) : List EmailRow :=
  db.filter (fun r => r.human_id == h && r.effective_to.isNone)

/-- The active rows carrying one email value, across all persons:
`WHERE email = ? AND effective_to IS NULL`. -/
def activeWithEmail (db : List EmailRow) (e : String) : List EmailRow :=
  db.filter (fun r => r.email == e && r.effective_to.isNone)

/-- The email-history invariant: at most one active row per person and
at most one active row per email value system-wide (the partial unique
index `idx_email_unique_active`). -/
def EmailInv (db : List EmailRow) : Prop :=
  (∀ h : Nat, (activeOf db h).length ≤ 1) ∧
  (∀ e : String, (activeWithEmail db e).length ≤ 1)

/-- The email-history part of `registerUser` (src/unnamed/part_003):
reject when the email is active for anyone (or the username is taken),
otherwise insert the initial active row for the fresh person id. -/
def registerEmailStep (db : List EmailRow) (newId : Nat) (email : String)
    (usernameTaken : Bool) : Except String (List EmailRow) :=
  if ((db.find? (fun r => r.email == email && r.effective_to.isNone)).isSome
      || usernameTaken) then
    .error "Email or username already in use."
  else
    .ok (db ++ [⟨newId, email, none, "initial"⟩])

/-- The UPDATE of `updateUserEmail` that closes the person's active
row: `SET effective_to = CURRENT_TIMESTAMP WHERE human_id = ? AND
effective_to IS NULL`. -/
def closeRow (humanId : Nat) (now : ℤ) (r : EmailRow) : EmailRow :=
  if r.human_id == humanId && r.effective_to.isNone then
    { r with effective_to := some now }
  else r

/-- `updateUserEmail` (src/unnamed/part_002): validate, reject when the
email is active for a different person, close the person's active row,
insert the new active row.  `userExists` models the humans-table
lookup. -/
def updateUserEmail (db : List EmailRow) (humanId : Nat) (email : String)
    (userExists : Bool) (now : ℤ) : Except String (List EmailRow) :=
  if email = "" then .error "Email is required"
  else if !userExists then .error "User not found"
  else if (db.find? (fun r => r.email == email && r.effective_to.isNone
      && !(r.human_id == humanId))).isSome then
    .error "Email already in use"
  else
    .ok (db.map (closeRow humanId now)
      ++ [⟨humanId, email, none, "admin_updated"⟩])

theorem closeRow_human (humanId : Nat) (now : ℤ) (r : EmailRow) :
    (closeRow humanId now r).human_id = r.human_id := by
  unfold closeRow
  split <;> rfl

theorem closeRow_email (humanId : Nat) (now : ℤ) (r : EmailRow) :
    (closeRow humanId now r).email = r.email := by
  unfold closeRow
  split <;> rfl

theorem closeRow_active (humanId : Nat) (now : ℤ) (r : EmailRow)
    (h : (closeRow humanId now r).effective_to.isNone = true) :
    r.effective_to.isNone = true ∧ r.human_id ≠ humanId := by
  unfold closeRow at h
  split at h
  · exact absurd h (by simp)
  · rename_i hcond
    rw [Bool.and_eq_true, beq_iff_eq] at hcond
    push_neg at hcond
    constructor
    · exact h
    · intro heq
      exact absurd h (by simpa using hcond heq)

theorem length_filter_map {α β : Type} (f : α → β) (p : β → Bool)
    (l : List α) :
    ((l.map f).filter p).length = (l.filter (fun a => p (f a))).length := by
  induction l with
  | nil => rfl
  | cons a t ih =>
      simp only [List.map_cons, List.filter_cons]
      cases hpa : p (f a) <;> simp [hpa, ih]

theorem length_filter_le_of_imp {α : Type} (l : List α) (p q : α → Bool)
    (h : ∀ a ∈ l, p a = true → q a = true) :
    (l.filter p).length ≤ (l.filter q).length := by
  induction l with
  | nil => simp
  | cons a t ih =>
      have ht : ∀ a ∈ t, p a = true → q a = true :=
        fun a ha => h a (List.mem_cons_of_mem _ ha)
      simp only [List.filter_cons]
      cases hpa : p a with
      | false =>
          cases hqa : q a with
          | false => exact ih ht
          | true => simpa using Nat.le_succ_of_le (ih ht)
      | true =>
          rw [h a (List.mem_cons_self a t) hpa]
          simpa using ih ht

theorem length_filter_append_single {α : Type} (l : List α) (p : α → Bool)
    (a : α) :
    ((l ++ [a]).filter p).length
      = (l.filter p).length + (if p a then 1 else 0) := by
  rw [List.filter_append]
  cases hpa : p a <;> simp [List.filter, hpa]

theorem register_preserves_inv (db : List EmailRow) (newId : Nat)
    (email : String) (usernameTaken : Bool) (db2 : List EmailRow)
    (hinv : EmailInv db) (hfresh : ∀ r ∈ db, r.human_id ≠ newId)
    (hok : registerEmailStep db newId email usernameTaken = .ok db2) :
    EmailInv db2 := by
  unfold registerEmailStep at hok
  split at hok
  · exact absurd hok (by simp)
  · rename_i hguard
    rw [Except.ok.injEq] at hok
    subst hok
    rw [Bool.or_eq_true, not_or] at hguard
    obtain ⟨hfindF, _⟩ := hguard
    have hfind : db.find? (fun r => r.email == email
        && r.effective_to.isNone) = none := by
      rw [← Option.not_isSome_iff_eq_none]
      simpa using hfindF
    have hnone : ∀ r ∈ db,
        ¬(r.email == email && r.effective_to.isNone) = true :=
      fun r hr => by simpa using List.find?_eq_none.mp hfind r hr
    obtain ⟨hinv1, hinv2⟩ := hinv
    constructor
    · intro h
      have hle := hinv1 h
      unfold activeOf at hle ⊢
      rw [length_filter_append_single]
      by_cases hh : h = newId
      · have h0 : db.filter
            (fun r => r.human_id == h && r.effective_to.isNone) = [] := by
          apply List.filter_eq_nil_iff.mpr
          intro r hr
          have hne : r.human_id ≠ h := by rw [hh]; exact hfresh r hr
          simp [hne]
        rw [h0]
        split <;> simp
      · simpa [Ne.symm hh] using hle
    · intro e
      have hle := hinv2 e
      unfold activeWithEmail at hle ⊢
      rw [length_filter_append_single]
      by_cases he : e = email
      · have h0 : db.filter
            (fun r => r.email == e && r.effective_to.isNone) = [] := by
          apply List.filter_eq_nil_iff.mpr
          intro r hr
          rw [he]
          have := hnone r hr
          simpa using this
        rw [h0]
        split <;> simp
      · simpa [Ne.symm he] using hle

theorem filter_map_eq_filter {α : Type} (f : α → α) (p : α → Bool)
    (l : List α)
    (h : ∀ a ∈ l, p (f a) = p a ∧ (p a = true → f a = a)) :
    (l.map f).filter p = l.filter p := by
  induction l with
  | nil => rfl
  | cons a t ih =>
      have hat := h a (List.mem_cons_self a t)
      have hrest : ∀ a ∈ t, p (f a) = p a ∧ (p a = true → f a = a) :=
        fun a ha => h a (List.mem_cons_of_mem _ ha)
      simp only [List.map_cons, List.filter_cons]
      cases hpa : p a with
      | true =>
          rw [hat.1.trans hpa, hat.2 hpa]
          simp only [if_pos rfl]
          rw [ih hrest]
      | false =>
          rw [hat.1.trans hpa]
          simp only [Bool.false_eq_true, if_neg]
          exact ih hrest

theorem length_filter_map_le {α : Type} (f : α → α) (p : α → Bool)
    (l : List α) (h : ∀ a ∈ l, p (f a) = true → p a = true) :
    ((l.map f).filter p).length ≤ (l.filter p).length := by
  induction l with
  | nil => simp
  | cons a t ih =>
      have hat := h a (List.mem_cons_self a t)
      have hrest : ∀ a ∈ t, p (f a) = true → p a = true :=
        fun a ha => h a (List.mem_cons_of_mem _ ha)
      simp only [List.map_cons, List.filter_cons]
      cases hfa : p (f a) with
      | true =>
          rw [hat hfa]
          simpa using ih hrest
      | false =>
          cases hpa : p a with
          | true => simpa using Nat.le_succ_of_le (ih hrest)
          | false => simpa using ih hrest

theorem closeRow_eq_of_human_ne (humanId : Nat) (now : ℤ) (r : EmailRow)
    (h : r.human_id ≠ humanId) : closeRow humanId now r = r := by
  unfold closeRow
  rw [if_neg (by simp [h])]

theorem update_preserves_inv (db : List EmailRow) (humanId : Nat)
    (email : String) (userExists : Bool) (now : ℤ) (db2 : List EmailRow)
    (hinv : EmailInv db)
    (hok : updateUserEmail db humanId email userExists now = .ok db2) :
    EmailInv db2 := by
  unfold updateUserEmail at hok
  split at hok
  · exact absurd hok (by simp)
  · split at hok
    · exact absurd hok (by simp)
    · split at hok
      · exact absurd hok (by simp)
      · rename_i hne hue h3
        rw [Except.ok.injEq] at hok
        subst hok
        have hfind : db.find? (fun r => r.email == email
            && r.effective_to.isNone && !(r.human_id == humanId)) = none := by
          rw [← Option.not_isSome_iff_eq_none]
          simpa using h3
        have hnone3 : ∀ r ∈ db, ¬(r.email == email && r.effective_to.isNone
            && !(r.human_id == humanId)) = true :=
          fun r hr => by simpa using List.find?_eq_none.mp hfind r hr
        obtain ⟨hinv1, hinv2⟩ := hinv
        constructor
        · intro g
          have hle := hinv1 g
          unfold activeOf at hle ⊢
          rw [length_filter_append_single]
          by_cases hg : g = humanId
          · have h0 : (db.map (closeRow humanId now)).filter
                (fun r => r.human_id == g && r.effective_to.isNone) = [] := by
              apply List.filter_eq_nil_iff.mpr
              intro r' hr'
              obtain ⟨r, hr, rfl⟩ := List.mem_map.mp hr'
              intro hcontra
              rw [Bool.and_eq_true] at hcontra
              obtain ⟨hact, hne2⟩ := closeRow_active humanId now r hcontra.2
              rw [closeRow_eq_of_human_ne humanId now r hne2] at hcontra
              rw [beq_iff_eq] at hcontra
              exact hne2 (hg ▸ hcontra.1)
            rw [h0]
            split <;> simp
          · have heq : (db.map (closeRow humanId now)).filter
                (fun r => r.human_id == g && r.effective_to.isNone)
                = db.filter (fun r => r.human_id == g
                    && r.effective_to.isNone) := by
              apply filter_map_eq_filter
              intro r hr
              by_cases hrh : r.human_id = humanId
              · have hgne : humanId ≠ g := fun hcg => hg hcg.symm
                have hc1 : (r.human_id == g) = false := by
                  rw [hrh]
                  simpa using hgne
                have hc2 : ((closeRow humanId now r).human_id == g)
                    = false := by
                  rw [closeRow_human]
                  exact hc1
                constructor
                · simp [hc1, hc2]
                · intro hp
                  rw [Bool.and_eq_true] at hp
                  exact absurd hp.1 (by simp [hc1])
              · rw [closeRow_eq_of_human_ne humanId now r hrh]
                exact ⟨rfl, fun _ => rfl⟩
            rw [heq]
            simpa [Ne.symm hg] using hle
        · intro e
          have hle := hinv2 e
          unfold activeWithEmail at hle ⊢
          rw [length_filter_append_single]
          by_cases he : e = email
          · have h0 : (db.map (closeRow humanId now)).filter
                (fun r => r.email == e && r.effective_to.isNone) = [] := by
              apply List.filter_eq_nil_iff.mpr
              intro r' hr'
              obtain ⟨r, hr, rfl⟩ := List.mem_map.mp hr'
              intro hcontra
              rw [Bool.and_eq_true] at hcontra
              obtain ⟨hact, hneq⟩ := closeRow_active humanId now r hcontra.2
              apply hnone3 r hr
              rw [closeRow_email] at hcontra
              rw [he] at hcontra
              simp [hcontra.1, hact, hneq]
            rw [h0]
            split <;> simp
          · have hmono : ((db.map (closeRow humanId now)).filter
                (fun r => r.email == e && r.effective_to.isNone)).length
                ≤ (db.filter (fun r => r.email == e
                    && r.effective_to.isNone)).length := by
              apply length_filter_map_le
              intro r hr hp
              rw [Bool.and_eq_true] at hp
              obtain ⟨hact, _⟩ := closeRow_active humanId now r hp.2
              rw [closeRow_email] at hp
              simp [hp.1, hact]
            have hnew : (((⟨humanId, email, none, "admin_updated"⟩
                : EmailRow).email == e)
                && (Option.isNone (none : Option ℤ))) = false := by
              simp [Ne.symm he]
            calc ((db.map (closeRow humanId now)).filter
                  (fun r => r.email == e && r.effective_to.isNone)).length
                  + (if ((fun r => r.email == e && r.effective_to.isNone)
                      (⟨humanId, email, none, "admin_updated"⟩ : EmailRow))
                      then 1 else 0)
                ≤ (db.filter (fun r => r.email == e
                    && r.effective_to.isNone)).length + 0 := by
                  refine Nat.add_le_add hmono ?_
                  simp [Ne.symm he]
              _ ≤ 1 := by simpa using hle

theorem update_rejects_conflict (db : List EmailRow) (humanId : Nat)
    (email : String) (now : ℤ) (hne : email ≠ "")
    (hconf : ∃ r ∈ db, r.email = email ∧ r.effective_to = none ∧
      r.human_id ≠ humanId) :
    updateUserEmail db humanId email true now
      = .error "Email already in use" := by
  unfold updateUserEmail
  rw [if_neg hne, if_neg (by simp)]
  rw [if_pos ?hp]
  case hp =>
    obtain ⟨r, hr, hre, hact, hhum⟩ := hconf
    refine List.find?_isSome.mpr ⟨r, hr, ?_⟩
    simp [hre, hact, hhum]

theorem update_ok_appends (db : List EmailRow) (humanId : Nat)
    (email : String) (userExists : Bool) (now : ℤ) (db2 : List EmailRow)
    (hok : updateUserEmail db humanId email userExists now = .ok db2) :
    db2 = db.map (closeRow humanId now)
      ++ [⟨humanId, email, none, "admin_updated"⟩] ∧
    (db.map (closeRow humanId now)).map (fun r => r.email)
      = db.map (fun r => r.email) ∧
    (db.map (closeRow humanId now)).map (fun r => r.human_id)
      = db.map (fun r => r.human_id) := by
  refine ⟨?_, ?_, ?_⟩
  · unfold updateUserEmail at hok
    split at hok
    · exact absurd hok (by simp)
    · split at hok
      · exact absurd hok (by simp)
      · split at hok
        · exact absurd hok (by simp)
        · rw [Except.ok.injEq] at hok
          exact hok.symm
  · rw [List.map_map]
    apply List.map_congr_left
    intro r _
    exact closeRow_email humanId now r
  · rw [List.map_map]
    apply List.map_congr_left
    intro r _
    exact closeRow_human humanId now r

end Identity

/-- C6: every mutation path preserves the email-history invariant (at
most one active row per person, active emails unique system-wide):
registration preserves it for a fresh person id, an admin email update
preserves it, an update that would activate an email already active for
a different person is rejected, and an update only closes rows and
appends a new one — it never mutates an existing email value or owner
in place. -/
theorem email_history_invariant_all_paths :
    (∀ (db : List Identity.EmailRow) (newId : Nat) (email : String)
      (usernameTaken : Bool) (db2 : List Identity.EmailRow),
      Identity.EmailInv db → (∀ r ∈ db, r.human_id ≠ newId) →
      Identity.registerEmailStep db newId email usernameTaken = .ok db2 →
      Identity.EmailInv db2) ∧
    (∀ (db : List Identity.EmailRow) (humanId : Nat) (email : String)
      (userExists : Bool) (now : ℤ) (db2 : List Identity.EmailRow),
      Identity.EmailInv db →
      Identity.updateUserEmail db humanId email userExists now = .ok db2 →
      Identity.EmailInv db2) ∧
    (∀ (db : List Identity.EmailRow) (humanId : Nat) (email : String)
      (now : ℤ), email ≠ "" →
      (∃ r ∈ db, r.email = email ∧ r.effective_to = none ∧
        r.human_id ≠ humanId) →
      Identity.updateUserEmail db humanId email true now
        = .error "Email already in use") ∧
    (∀ (db : List Identity.EmailRow) (humanId : Nat) (email : String)
      (userExists : Bool) (now : ℤ) (db2 : List Identity.EmailRow),
      Identity.updateUserEmail db humanId email userExists now = .ok db2 →
      db2 = db.map (Identity.closeRow humanId now)
        ++ [⟨humanId, email, none, "admin_updated"⟩] ∧
      (db.map (Identity.closeRow humanId now)).map (fun r => r.email)
        = db.map (fun r => r.email) ∧
      (db.map (Identity.closeRow humanId now)).map (fun r => r.human_id)
        = db.map (fun r => r.human_id)) :=
  ⟨Identity.register_preserves_inv,
   Identity.update_preserves_inv,
   fun db humanId email now hne hconf =>
     Identity.update_rejects_conflict db humanId email now hne hconf,
   Identity.update_ok_appends⟩

/-- Witness for the email-history theorem: updating person 2 to the
email currently active for person 1 is rejected. -/
theorem email_history_invariant_all_paths_witness :
    Identity.updateUserEmail [⟨1, "a@x.com", none, "initial"⟩] 2
        "a@x.com" true 0
      = .error "Email already in use" :=
  email_history_invariant_all_paths.2.2.1
    [⟨1, "a@x.com", none, "initial"⟩] 2 "a@x.com" 0
    (by decide)
    ⟨⟨1, "a@x.com", none, "initial"⟩, by simp, rfl, rfl, by decide⟩

/-! ## Product creation with nested songs (src/unnamed/part_005) -/

namespace Products

/-- One entry of the nested `songs` array of a createProduct request.
Strings are taken as sent; `none` models an absent field. -/
structure SongInput where
  title : String
  genre : Option String := none
  duration_seconds : Option Nat := none
  individual_price : Option ℚ := none
  is_explicit : Bool := false
  track_number : Option Nat := none
  disc_number : Option Nat := none
  deriving DecidableEq, Repr

/-- JavaScript falsiness of an optional string: absent or empty. -/
def falsyStr : Option String → Bool
  | none => true
  | some s => s == ""

/-- `x || d` for an optional rational (0 is falsy). -/
def qOr (o : Option ℚ) (d : ℚ) : ℚ :=
  match o with
  | none => d
  | some x => if x == 0 then d else x

/-- `x || d` for an optional natural (0 is falsy). -/
def nOr (o : Option Nat) (d : Nat) : Nat :=
  match o with
  | none => d
  | some 0 => d
  | some n => n

/-- A row of `products` as inserted by createProduct. -/
structure ProductRow where
  id : Nat
  title : String
  artist : String
  price : ℚ
  image : String
  year : Option Nat
  genre : Option String
  stock : ℤ
  type : String
  deriving DecidableEq, Repr

/-- A `humans` row as inserted by the artist-resolution step. -/
structure HumanRow where
  id : Nat
  first_name : String
  last_name : String
  deriving DecidableEq, Repr

/-- An `artists` row. -/
structure ArtistRow where
  human_id : Nat
  stage_name : String
  deriving DecidableEq, Repr

/-- A `songs` row as inserted by the song loop. -/
structure SongRow where
  id : Nat
  title : String
  genre : Option String
  artist_human_id : Option Nat
  individual_price : ℚ
  is_explicit : Bool
  deriving DecidableEq, Repr

/-- The tables createProduct touches. -/
structure CatalogState where
  products : List ProductRow
  humans : List HumanRow
  artists : List ArtistRow
  songs : List SongRow
  album_songs : List Catalog.AlbumSongRow
  deriving DecidableEq, Repr

/-- The parsed createProduct request body.  `price` is the parseFloat
result (`none` = absent or NaN); strings are taken already trimmed. -/
structure CreateProductRequest where
  title : String
  artist : String
  price : Option ℚ
  image : String
  year : Option Nat := none
  genre : Option String := none
  stock : Option ℤ := none
  type : Option String := none
  songs : Option (List SongInput) := none
  deriving DecidableEq, Repr

def validTypes : List String := ["Album", "Single", "EP", "Merch"]

def isMusicType (t : String) : Bool :=
  t == "Album" || t == "Single" || t == "EP"

/-- JavaScript falsiness of the price field. -/
def priceFalsy : Option ℚ → Bool
  | none => true
  | some x => x == 0

/-- `isNaN(priceNum) || priceNum <= 0`. -/
def priceNonPos : Option ℚ → Bool
  | none => true
  | some x => decide (x ≤ 0)

/-- JavaScript falsiness of the year field. -/
def yearFalsy : Option Nat → Bool
  | none => true
  | some y => y == 0

/-- `isNaN(stockNum) || stockNum < 0` (stock defaults to 12). -/
def stockNeg : Option ℤ → Bool
  | none => false
  | some z => decide (z < 0)

/-- The validation prefix of createProduct, in source order; `none`
means validation passed. -/
def validateCreateProduct (req : CreateProductRequest) (nowYear : Nat) :
    Option String :=
  if req.title == "" || req.artist == "" || priceFalsy req.price
      || req.image == "" then
    some "Title, artist, price, and image are required"
  else
    let type := req.type.getD "Album"
    if !(validTypes.contains type) then
      some "Type must be Album, Single, EP, or Merch"
    else if isMusicType type && (yearFalsy req.year || falsyStr req.genre) then
      some "Year and genre are required for music products"
    else if priceNonPos req.price then
      some "Price must be a positive number"
    else if stockNeg req.stock then
      some "Stock must be a non-negative number"
    else
      match req.year with
      | none => none
      | some y =>
          if y < 1900 || nowYear + 1 < y then some "Invalid year" else none

def freshProductId (st : CatalogState) : Nat :=
  (st.products.map (fun r => r.id)).foldr max 0 + 1

def freshHumanId (st : CatalogState) : Nat :=
  (st.humans.map (fun r => r.id)).foldr max 0 + 1

def freshSongId (st : CatalogState) : Nat :=
  (st.songs.map (fun r => r.id)).foldr max 0 + 1

/-- The artist-resolution step for music products: case-insensitive
stage-name lookup; on a miss, insert a new human and artist row. -/
def resolveArtist (st : CatalogState) (artist : String) (music : Bool) :
    Option Nat × CatalogState :=
  if music then
    match st.artists.find?
        (fun a => a.stage_name.toLower == artist.toLower) with
    | some a => (some a.human_id, st)
    | none =>
        let hid := freshHumanId st
        (some hid,
         { st with humans := st.humans ++ [⟨hid, artist, ""⟩],
                   artists := st.artists ++ [⟨hid, artist⟩] })
  else (none, st)

/-- The two inserts for one accepted song entry: the songs row and its
album_songs bridge row. -/
def insertedState (albumId : Nat) (artistId : Option Nat)
    (song : SongInput) (st : CatalogState) : CatalogState :=
  { st with
    songs := st.songs ++ [⟨freshSongId st, song.title, song.genre, artistId,
      qOr song.individual_price (99/100), song.is_explicit⟩],
    album_songs := st.album_songs ++
      [⟨albumId, freshSongId st, nOr song.track_number 1,
        nOr song.disc_number 1⟩] }

/-- The song-insertion loop.  A titleless entry is skipped
(`!songTitle || !songTitle.trim()`; `.trim()` is modelled as the
identity, strings being taken already trimmed); a song with a truthy
genre is inserted together with its bridge row; a song with a falsy
genre evaluates the undeclared identifier `productGenre`, which raises
a ReferenceError — modelled as `.error` carrying the state at the
moment of the throw (no rollback happens). -/
def insertSongs (albumId : Nat) (artistId : Option Nat) :
    List SongInput → CatalogState → Nat →
      Except CatalogState (CatalogState × Nat)
  | [], st, n => .ok (st, n)
  | song :: rest, st, n =>
      if song.title == "" then insertSongs albumId artistId rest st n
      else if falsyStr song.genre then .error st
      else insertSongs albumId artistId rest
        (insertedState albumId artistId song st) (n + 1)

/-- The product row createProduct inserts (before any artist or song
step). -/
def mkProductRow (st : CatalogState) (req : CreateProductRequest) :
    ProductRow :=
  ⟨freshProductId st, req.title, req.artist, (req.price.getD 0), req.image,
   req.year, req.genre, req.stock.getD 12, req.type.getD "Album"⟩

/-- Outcome of createProduct. -/
inductive CreateProductResult where
  | validationError (error : String)
  | serverError
  | created (productId : Nat) (songsAdded : Nat)
  deriving DecidableEq, Repr

/-- `createProduct` from src/unnamed/part_005: validate, insert the
product row, resolve the artist for music types, then insert the
nested songs.  There is no transaction: an exception in the song loop
is caught and answered with a 500 while every earlier insert stays. -/
def createProduct (st : CatalogState) (req : CreateProductRequest)
    (nowYear : Nat) : CreateProductResult × CatalogState :=
  match validateCreateProduct req nowYear with
  | some e => (.validationError e, st)
  | none =>
      let productId := freshProductId st
      let st1 : CatalogState :=
        { st with products := st.products ++ [mkProductRow st req] }
      let music := isMusicType (req.type.getD "Album")
      let res := resolveArtist st1 req.artist music
      match insertSongs productId res.1 (req.songs.getD []) res.2 0 with
      | .error stF => (.serverError, stF)
      | .ok (st3, n) => (.created productId n, st3)

theorem resolveArtist_products (st : CatalogState) (a : String)
    (m : Bool) : (resolveArtist st a m).2.products = st.products := by
  unfold resolveArtist
  split
  · split <;> rfl
  · rfl

theorem resolveArtist_songs (st : CatalogState) (a : String)
    (m : Bool) : (resolveArtist st a m).2.songs = st.songs := by
  unfold resolveArtist
  split
  · split <;> rfl
  · rfl

theorem insertSongs_cons_skip (albumId : Nat) (artistId : Option Nat)
    (song : SongInput) (rest : List SongInput) (st : CatalogState) (n : Nat)
    (h : (song.title == "") = true) :
    insertSongs albumId artistId (song :: rest) st n
      = insertSongs albumId artistId rest st n := by
  simp only [insertSongs]
  rw [if_pos h]

theorem insertSongs_cons_raise (albumId : Nat) (artistId : Option Nat)
    (song : SongInput) (rest : List SongInput) (st : CatalogState) (n : Nat)
    (h1 : ¬(song.title == "") = true) (h2 : falsyStr song.genre = true) :
    insertSongs albumId artistId (song :: rest) st n = .error st := by
  simp only [insertSongs]
  rw [if_neg h1, if_pos h2]

theorem insertSongs_cons_insert (albumId : Nat) (artistId : Option Nat)
    (song : SongInput) (rest : List SongInput) (st : CatalogState) (n : Nat)
    (h1 : ¬(song.title == "") = true) (h2 : ¬falsyStr song.genre = true) :
    insertSongs albumId artistId (song :: rest) st n
      = insertSongs albumId artistId rest
          (insertedState albumId artistId song st) (n + 1) := by
  simp only [insertSongs]
  rw [if_neg h1, if_neg h2]

theorem insertSongs_error_of_bad (albumId : Nat) (artistId : Option Nat) :
    ∀ (songs : List SongInput) (st : CatalogState) (n : Nat),
      (∃ s ∈ songs, s.title ≠ "" ∧ falsyStr s.genre = true) →
      ∃ stF, insertSongs albumId artistId songs st n = .error stF ∧
        stF.products = st.products ∧
        ∃ tail, stF.songs = st.songs ++ tail := by
  intro songs
  induction songs with
  | nil =>
      rintro st n ⟨s, hs, _⟩
      cases hs
  | cons song rest ih =>
      rintro st n ⟨s, hs, hst, hsg⟩
      by_cases h1 : song.title == ""
      · rw [insertSongs_cons_skip albumId artistId song rest st n h1]
        rcases List.mem_cons.mp hs with rfl | hmem
        · exact absurd (by simpa using h1) hst
        · exact ih st n ⟨s, hmem, hst, hsg⟩
      · by_cases h2 : falsyStr song.genre
        · rw [insertSongs_cons_raise albumId artistId song rest st n h1 h2]
          exact ⟨st, rfl, rfl, [], by simp⟩
        · rcases List.mem_cons.mp hs with rfl | hmem
          · exact absurd hsg h2
          · rw [insertSongs_cons_insert albumId artistId song rest st n h1 h2]
            obtain ⟨stF, heq, hprod, tail, hsongs⟩ :=
              ih (insertedState albumId artistId song st) (n + 1)
                ⟨s, hmem, hst, hsg⟩
            refine ⟨stF, heq, by rw [hprod]; rfl, ?_⟩
            refine ⟨⟨freshSongId st, song.title, song.genre, artistId,
              qOr song.individual_price (99/100), song.is_explicit⟩ :: tail,
              ?_⟩
            rw [hsongs]
            show (insertedState albumId artistId song st).songs ++ tail = _
            unfold insertedState
            simp

end Products

/-- The empty catalog. -/
def emptyCatalog : Products.CatalogState := ⟨[], [], [], [], []⟩

/-- A music-type createProduct request whose only nested song has no
title and no genre. -/
def reqTitlelessSong : Products.CreateProductRequest :=
  { title := "Songs in A", artist := "S", price := some 10, image := "img",
    year := some 1976, genre := some "Soul", type := some "Album",
    songs := some [{ title := "" }] }

/-- C10 counterexample: this music-type request contains a song with an
absent genre, yet createProduct succeeds (201, zero songs added): the
entry is skipped for lacking a title before the genre expression — and
hence `productGenre` — is ever evaluated. -/
theorem createProduct_titleless_song_succeeds :
    (Products.createProduct emptyCatalog reqTitlelessSong 2026).1
      = .created 1 0 ∧
    ∃ s ∈ reqTitlelessSong.songs.getD [], Products.falsyStr s.genre = true := by
  constructor
  · rfl
  · exact ⟨{ title := "" }, by simp [reqTitlelessSong], rfl⟩

/-- C10 (amended): for every music-type createProduct request passing
validation whose nested songs array contains a song with a non-empty
title and an absent (falsy) genre field, the song-insertion loop raises
an error (it evaluates the undeclared identifier `productGenre`), so
the request fails with a 500 while the already-inserted product row —
inserted before artist resolution and the song loop — and any song rows
inserted for earlier array entries remain persisted. -/
theorem createProduct_bad_genre_fails_after_insert
    (st : Products.CatalogState) (req : Products.CreateProductRequest)
    (nowYear : Nat)
    (hval : Products.validateCreateProduct req nowYear = none)
    (hbad : ∃ s ∈ req.songs.getD [], s.title ≠ "" ∧
      Products.falsyStr s.genre = true) :
    ∃ stF, Products.createProduct st req nowYear = (.serverError, stF) ∧
      stF.products = st.products ++ [Products.mkProductRow st req] ∧
      ∃ tail, stF.songs = st.songs ++ tail := by
  obtain ⟨stF, heq, hprod, tail, hsongs⟩ :=
    Products.insertSongs_error_of_bad (Products.freshProductId st)
      (Products.resolveArtist
        { st with products := st.products ++ [Products.mkProductRow st req] }
        req.artist (Products.isMusicType (req.type.getD "Album"))).1
      (req.songs.getD [])
      (Products.resolveArtist
        { st with products := st.products ++ [Products.mkProductRow st req] }
        req.artist (Products.isMusicType (req.type.getD "Album"))).2
      0 hbad
  refine ⟨stF, ?_, ?_, ?_⟩
  · unfold Products.createProduct
    rw [hval]
    simp only [heq]
  · rw [hprod, Products.resolveArtist_products]
  · exact ⟨tail, by rw [hsongs, Products.resolveArtist_songs]⟩

/-- Witness for the amended createProduct theorem: the same request
with the song titled but genreless makes the whole request fail while
the product row persists. -/
theorem createProduct_bad_genre_fails_after_insert_witness :
    ∃ stF, Products.createProduct emptyCatalog
        { reqTitlelessSong with songs := some [{ title := "Visions" }] } 2026
      = (.serverError, stF) ∧
      stF.products = emptyCatalog.products ++
        [Products.mkProductRow emptyCatalog
          { reqTitlelessSong with songs := some [{ title := "Visions" }] }] ∧
      ∃ tail, stF.songs = emptyCatalog.songs ++ tail :=
  createProduct_bad_genre_fails_after_insert emptyCatalog
    { reqTitlelessSong with songs := some [{ title := "Visions" }] } 2026
    rfl
    ⟨{ title := "Visions" }, by simp [reqTitlelessSong], by decide, rfl⟩

end SoulProvider
